import Mathlib

/-!
Shallow embedding of `src/diffusers/image_processor.py`: the VAE image
processor (`VaeImageProcessor`) and its LDM3D depth variant
(`VaeImageProcessorLDM3D`).

Modelling conventions:
- float element values are exact rationals (`ℚ`);
- a torch tensor is a shape together with a total value function (indices
  outside the shape read junk values that no modelled operation depends on);
- numpy arrays are channel-last, tensors channel-first, as in the source;
- the uint8 cast `astype("uint8")` is a C-style cast and is modelled as
  reduction modulo 256 (the wraparound behavior of the cast), not clamping;
- `numpy.round` is round-half-to-even (banker's rounding);
- fallible operations return `Except`; the raise sites of the source become
  error constructors.
The PIL image branch of `preprocess` (decode/resample of pixel-map objects)
is external-library behavior; of it only the dimension computation of
`resize` is embedded (`resizeDims`), which is all the claims touch.
-/

namespace VaeImageProcessor

/-- Configuration registered by `VaeImageProcessor.__init__` (lines 48-57). -/
structure Config where
  do_resize : Bool
  vae_scale_factor : Nat
  resample : String
  do_normalize : Bool
  do_convert_rgb : Bool

/-- A 3-dimensional torch tensor with shape (C, H, W); element access is a
total function and indices outside the shape read junk values. -/
structure T3 where
  c : Nat
  h : Nat
  w : Nat
  val : Nat → Nat → Nat → ℚ

/-- A 4-dimensional torch tensor with shape (N, C, H, W), channel-first. -/
structure T4 where
  n : Nat
  c : Nat
  h : Nat
  w : Nat
  val : Nat → Nat → Nat → Nat → ℚ

/-- A 3-dimensional numpy array with shape (H, W, C), channel-last. -/
structure A3 where
  h : Nat
  w : Nat
  c : Nat
  val : Nat → Nat → Nat → ℚ

/-- A 4-dimensional numpy array with shape (N, H, W, C), channel-last. -/
structure A4 where
  n : Nat
  h : Nat
  w : Nat
  c : Nat
  val : Nat → Nat → Nat → Nat → ℚ

/-- torch.cat of two 4-D tensors along the batch axis. -/
def t4cat2 (a b : T4) : T4 :=
  ⟨a.n + b.n, a.c, a.h, a.w, fun i c y x =>
    if i < a.n then a.val i c y x else b.val (i - a.n) c y x⟩

/-- torch.cat(image, axis=0) over a nonempty list of 4-D tensors (line 186). -/
def t4cat (hd : T4) (tl : List T4) : T4 := tl.foldl t4cat2 hd

/-- torch.stack(image, axis=0) over a nonempty list of 3-D tensors
(line 186); the batch shape comes from the first element. -/
def t3stack (hd : T3) (tl : List T3) : T4 :=
  ⟨(hd :: tl).length, hd.c, hd.h, hd.w, fun i c y x => ((hd :: tl).getD i hd).val c y x⟩

/-- np.concatenate of two 4-D arrays along the batch axis. -/
def a4cat2 (a b : A4) : A4 :=
  ⟨a.n + b.n, a.h, a.w, a.c, fun i y x c =>
    if i < a.n then a.val i y x c else b.val (i - a.n) y x c⟩

/-- np.concatenate(image, axis=0) over a nonempty list of 4-D arrays (line 174). -/
def a4concat (hd : A4) (tl : List A4) : A4 := tl.foldl a4cat2 hd

/-- np.stack(image, axis=0) over a nonempty list of 3-D arrays (line 174). -/
def a3stack (hd : A3) (tl : List A3) : A4 :=
  ⟨(hd :: tl).length, hd.h, hd.w, hd.c, fun i y x c => ((hd :: tl).getD i hd).val y x c⟩

/-- numpy_to_pt on a 4-D array (lines 88-96): transpose (0, 3, 1, 2) from
channel-last to channel-first.  The 3-D promotion branch of the source is
never reached from `preprocess`, whose arrays are already batched. -/
def numpy_to_pt (a : A4) : T4 := ⟨a.n, a.c, a.h, a.w, fun i c y x => a.val i y x c⟩

/-- pt_to_numpy (lines 98-104): permute (0, 2, 3, 1) back to channel-last. -/
def pt_to_numpy (t : T4) : A4 := ⟨t.n, t.h, t.w, t.c, fun i y x c => t.val i c y x⟩

/-- Elementwise formula of `normalize` (line 111): 2.0 * images - 1.0. -/
def normalizeVal (x : ℚ) : ℚ := 2 * x - 1

/-- torch clamp(lo, hi): max with the lower bound, then min with the upper. -/
def clamp (x lo hi : ℚ) : ℚ := min (max x lo) hi

/-- Elementwise formula of `denormalize` (line 118): (images / 2 + 0.5).clamp(0, 1). -/
def denormalizeVal (x : ℚ) : ℚ := clamp (x / 2 + 1/2) 0 1

/-- normalize (lines 106-111) applied to a whole tensor. -/
def normalize (t : T4) : T4 :=
  ⟨t.n, t.c, t.h, t.w, fun i c y x => normalizeVal (t.val i c y x)⟩

/-- All elements of a tensor, row-major. -/
def T4.elems (t : T4) : List ℚ :=
  (List.range t.n).flatMap fun i =>
    (List.range t.c).flatMap fun c =>
      (List.range t.h).flatMap fun y =>
        (List.range t.w).map fun x => t.val i c y x

/-- image.min(): the minimum element of a tensor (0 for a degenerate empty
shape, which torch itself rejects). -/
def T4.tmin (t : T4) : ℚ :=
  match t.elems with
  | [] => 0
  | q :: qs => qs.foldl min q

/-- The one raise site shared by the array and tensor paths of `preprocess`
(lines 180-183 and 196-199). -/
inductive PreprocessError where
  | sizeNotDivisible

/-- The `image` argument of `preprocess` after the initial wrap (line 159):
a nonempty homogeneous list of arrays or tensors, split by the dimensionality
that the source reads off element 0.  A single (non-list) input is the
singleton list.  The PIL branch is not modelled (see the module comment),
and the heterogeneous-list rejection of lines 160-163 is upstream of the
dispatch embedded here. -/
inductive BatchInput where
  | arrs3 (hd : A3) (tl : List A3)
  | arrs4 (hd : A4) (tl : List A4)
  | tens3 (hd : T3) (tl : List T3)
  | tens4 (hd : T4) (tl : List T4)

/-- The batched channel-first tensor each `preprocess` branch builds before
its checks: stack/concatenate, and for arrays also numpy_to_pt. -/
def batched : BatchInput → T4
  | .arrs3 hd tl => numpy_to_pt (a3stack hd tl)
  | .arrs4 hd tl => numpy_to_pt (a4concat hd tl)
  | .tens3 hd tl => t3stack hd tl
  | .tens4 hd tl => t4cat hd tl

/-- Whether the `channel == 4` early return of the tensor branch
(lines 190-191) fires: tensor-typed input whose batched channel count is 4. -/
def latentShortcut : BatchInput → Bool
  | .tens3 hd tl => (t3stack hd tl).c == 4
  | .tens4 hd tl => (t4cat hd tl).c == 4
  | _ => false

/-- Whether a preprocess input is numpy-array-typed (a single 3-D array, a
4-D batch, or a list of either), i.e. takes the np.ndarray branch of the
dispatch (lines 173-183). -/
def isArrayInput : BatchInput → Bool
  | .arrs3 _ _ => true
  | .arrs4 _ _ => true
  | _ => false

/-- The shared tail of `preprocess` (lines 201-213): force-skip
normalization when the observed minimum is negative (the source also emits a
FutureWarning there), otherwise normalize when configured to. -/
def rangeAndNormalize (cfg : Config) (image : T4) : T4 :=
  let do_normalize := if image.tmin < 0 then false else cfg.do_normalize
  if do_normalize = true then normalize image else image

/-- preprocess (lines 148-214), array and tensor paths: batch the input,
convert arrays to channel-first, early-return 4-channel tensors, reject
non-divisible sizes when resizing is enabled, then range-check and
normalize. -/
def preprocess (cfg : Config) (input : BatchInput) : Except PreprocessError T4 :=
  match input with
  | .arrs3 hd tl =>
    let image := numpy_to_pt (a3stack hd tl)
    if cfg.do_resize = true ∧
        (image.h % cfg.vae_scale_factor ≠ 0 ∨ image.w % cfg.vae_scale_factor ≠ 0) then
      Except.error PreprocessError.sizeNotDivisible
    else
      Except.ok (rangeAndNormalize cfg image)
  | .arrs4 hd tl =>
    let image := numpy_to_pt (a4concat hd tl)
    if cfg.do_resize = true ∧
        (image.h % cfg.vae_scale_factor ≠ 0 ∨ image.w % cfg.vae_scale_factor ≠ 0) then
      Except.error PreprocessError.sizeNotDivisible
    else
      Except.ok (rangeAndNormalize cfg image)
  | .tens3 hd tl =>
    let image := t3stack hd tl
    if image.c = 4 then
      Except.ok image
    else if cfg.do_resize = true ∧
        (image.h % cfg.vae_scale_factor ≠ 0 ∨ image.w % cfg.vae_scale_factor ≠ 0) then
      Except.error PreprocessError.sizeNotDivisible
    else
      Except.ok (rangeAndNormalize cfg image)
  | .tens4 hd tl =>
    let image := t4cat hd tl
    if image.c = 4 then
      Except.ok image
    else if cfg.do_resize = true ∧
        (image.h % cfg.vae_scale_factor ≠ 0 ∨ image.w % cfg.vae_scale_factor ≠ 0) then
      Except.error PreprocessError.sizeNotDivisible
    else
      Except.ok (rangeAndNormalize cfg image)

/-- The dimension computation of `resize` (lines 142-144): floor width and
height to the nearest lower multiple of vae_scale_factor.  The subsequent
pixel resampling is external image-library behavior. -/
def resizeDims (vae_scale_factor width height : Nat) : Nat × Nat :=
  (width - width % vae_scale_factor, height - height % vae_scale_factor)

/-- numpy round(): round half to even (banker's rounding). -/
def roundHalfEven (x : ℚ) : ℤ :=
  if x - (⌊x⌋ : ℚ) = 1/2 then (if ⌊x⌋ % 2 = 0 then ⌊x⌋ else ⌊x⌋ + 1) else round x

/-- The uint8 value of one float pixel in the conversion
(images * 255).round().astype("uint8") of numpy_to_pil (line 66): scale by
255, round half to even, then C-style cast to uint8, which wraps modulo 256
rather than clamping. -/
def floatToUint8 (x : ℚ) : ℤ := roundHalfEven (x * 255) % 256

/-- An 8-bit PIL image: height, width, channel count, integer pixel values. -/
structure Img where
  h : Nat
  w : Nat
  c : Nat
  val : Nat → Nat → Nat → ℤ

/-- numpy_to_pil (lines 59-73): convert each float image of a batch to 8-bit
via `floatToUint8`; single-channel arrays become squeezed L-mode images. -/
def numpy_to_pil (a : A4) : List Img :=
  if a.c = 1 then
    (List.range a.n).map fun i => ⟨a.h, a.w, 1, fun y x c => floatToUint8 (a.val i y x c)⟩
  else
    (List.range a.n).map fun i => ⟨a.h, a.w, a.c, fun y x c => floatToUint8 (a.val i y x c)⟩

/-- The output-type deprecation coercion shared verbatim by both postprocess
methods (lines 226-232 and 336-342): any string outside the recognized set
is replaced by np (the source also emits a deprecation warning). -/
def coerceOutputType (output_type : String) : String :=
  if output_type = "latent" ∨ output_type = "pt" ∨ output_type = "np" ∨ output_type = "pil"
  then output_type else "np"

/-- The torch.stack comprehension of postprocess (lines 240-242): denormalize
batch item i exactly when its flag is set. -/
def denormStack (flags : List Bool) (t : T4) : T4 :=
  ⟨t.n, t.c, t.h, t.w, fun i c y x =>
    if flags.getD i false = true then denormalizeVal (t.val i c y x) else t.val i c y x⟩

/-- The four possible results of the base postprocess. -/
inductive BaseOut where
  | latent (t : T4)
  | pt (t : T4)
  | np (a : A4)
  | pil (imgs : List Img)

/-- postprocess of the base adapter (lines 216-253) on a tensor input: coerce
the output type, short-circuit latent, denormalize per item, then convert as
far as the requested format asks.  After the coercion the final branch can
only be pil, matching the source's trailing `if`. -/
def postprocess (cfg : Config) (image : T4) (output_type : String)
    (do_denormalize : Option (List Bool)) : BaseOut :=
  let ot := coerceOutputType output_type
  if ot = "latent" then BaseOut.latent image
  else
    let flags := do_denormalize.getD (List.replicate image.n cfg.do_normalize)
    let image := denormStack flags image
    if ot = "pt" then BaseOut.pt image
    else
      let arr := pt_to_numpy image
      if ot = "np" then BaseOut.np arr
      else BaseOut.pil (numpy_to_pil arr)

end VaeImageProcessor

namespace VaeImageProcessorLDM3D

/-- rgblike_to_depthmap (lines 300-309) on an integer-valued channel-last
image: image[:, :, 1] * 2**8 + image[:, :, 2] — big-endian 16-bit
reconstruction from the two 8-bit channels 1 and 2, ignoring channel 0.
This is the form used on the uint8 arrays of numpy_to_depth. -/
def rgblike_to_depthmap (image : Nat → Nat → Nat → Nat) (y x : Nat) : Nat :=
  image y x 1 * 2 ^ 8 + image y x 2

/-- rgblike_to_depthmap applied to a float array, as in the np branch of the
LDM3D postprocess (line 360): the same formula over rational values. -/
def rgblike_to_depthmapF (image : Nat → Nat → Nat → ℚ) (y x : Nat) : ℚ :=
  image y x 1 * 2 ^ 8 + image y x 2

/-- A 16-bit single-channel depth image (mode I;16). -/
structure DepthImg where
  h : Nat
  w : Nat
  val : Nat → Nat → Nat

/-- The raise sites of the LDM3D postprocess pipeline: the trailing
`raise Exception(f"This type ... is not supported")` of postprocess
(line 365) and the `raise Exception("Not supported")` of numpy_to_depth
(line 320). -/
inductive PostErr where
  | unsupportedType (s : String)
  | depthNotSupported

/-- numpy_to_depth (lines 311-324): uint8-convert the float batch, reject
single-channel input, and rebuild a 16-bit depth image from channels 3: of
each item via rgblike_to_depthmap (whose channels 1 and 2 of the slice are
the original channels 4 and 5). -/
def numpy_to_depth (a : VaeImageProcessor.A4) : Except PostErr (List DepthImg) :=
  if a.c = 1 then Except.error PostErr.depthNotSupported
  else Except.ok ((List.range a.n).map fun i =>
    ⟨a.h, a.w, rgblike_to_depthmap
      (fun y x c => (VaeImageProcessor.floatToUint8 (a.val i y x (c + 3))).toNat)⟩)

/-- The LDM3D override of numpy_to_pil (lines 284-298): identical to the
base except that the multi-channel branch keeps only channels :3. -/
def numpy_to_pil (a : VaeImageProcessor.A4) : List VaeImageProcessor.Img :=
  if a.c = 1 then
    (List.range a.n).map fun i =>
      ⟨a.h, a.w, 1, fun y x c => VaeImageProcessor.floatToUint8 (a.val i y x c)⟩
  else
    (List.range a.n).map fun i =>
      ⟨a.h, a.w, min a.c 3, fun y x c => VaeImageProcessor.floatToUint8 (a.val i y x c)⟩

/-- A batch of single-channel float depth maps, shape (N, H, W). -/
structure DepthArr where
  n : Nat
  h : Nat
  w : Nat
  val : Nat → Nat → Nat → ℚ

/-- image[:, :, :, :3] (line 360): keep at most the first three channels. -/
def sliceRGB (a : VaeImageProcessor.A4) : VaeImageProcessor.A4 :=
  ⟨a.n, a.h, a.w, min a.c 3, a.val⟩

/-- np.stack([rgblike_to_depthmap(im[:, :, 3:]) for im in image], axis=0)
(line 360): per item, decode the depth map from the channels from 3 on. -/
def depthStack (a : VaeImageProcessor.A4) : DepthArr :=
  ⟨a.n, a.h, a.w, fun i y x => rgblike_to_depthmapF (fun y x c => a.val i y x (c + 3)) y x⟩

/-- The two possible results of the LDM3D postprocess. -/
inductive LDM3DOut where
  | np (rgb : VaeImageProcessor.A4) (depth : DepthArr)
  | pil (rgb : List VaeImageProcessor.Img) (depth : List DepthImg)

/-- postprocess of the LDM3D adapter (lines 326-365): the same output-type
coercion as the base (so an unrecognized string becomes np), but the latent
and pt short-circuits are commented out in the source, so after denormalize
and layout conversion those two recognized types fall through to the
trailing raise. -/
def postprocess (cfg : VaeImageProcessor.Config) (image : VaeImageProcessor.T4)
    (output_type : String) (do_denormalize : Option (List Bool)) :
    Except PostErr LDM3DOut :=
  let ot := VaeImageProcessor.coerceOutputType output_type
  let flags := do_denormalize.getD (List.replicate image.n cfg.do_normalize)
  let image := VaeImageProcessor.denormStack flags image
  let arr := VaeImageProcessor.pt_to_numpy image
  if ot = "np" then Except.ok (LDM3DOut.np (sliceRGB arr) (depthStack arr))
  else if ot = "pil" then
    match numpy_to_depth arr with
    | Except.error e => Except.error e
    | Except.ok d => Except.ok (LDM3DOut.pil (numpy_to_pil arr) d)
  else Except.error (PostErr.unsupportedType ot)

end VaeImageProcessorLDM3D

namespace VaeImageProcessor

/-- A default configuration: resize and normalize enabled, stride 8. -/
def cfgDefault : Config := ⟨true, 8, "lanczos", true, false⟩

/-- A configuration with resizing turned off. -/
def cfgNoResize : Config := ⟨false, 8, "lanczos", true, false⟩

/-- A concrete 4-channel latent tensor. -/
def tLatent : T4 := ⟨1, 4, 8, 8, fun _ _ _ _ => 1/2⟩

/-- A concrete 3-D array whose sides are not multiples of 8. -/
def a3Bad : A3 := ⟨9, 9, 3, fun _ _ _ => 1/2⟩

/-- A concrete single-channel tensor all of whose elements are -1. -/
def tNeg : T4 := ⟨1, 1, 1, 1, fun _ _ _ _ => -1⟩

/-- A concrete single 3-D 4-channel (H, W, 4) array filled with zeros. -/
def a3Latentish : A3 := ⟨1, 1, 4, fun _ _ _ => 0⟩

/-- A concrete 6-channel tensor (RGB plus depth channels) for postprocess. -/
def tPost : T4 := ⟨1, 6, 2, 2, fun _ _ _ _ => 0⟩

/-- Helper: for non-latent input, `preprocess` is the divisibility check on
the batched tensor followed by the shared range/normalize tail. -/
theorem preprocess_not_latent_eq (cfg : Config) (inp : BatchInput)
    (hlat : latentShortcut inp = false) :
    preprocess cfg inp =
      if cfg.do_resize = true ∧
          ((batched inp).h % cfg.vae_scale_factor ≠ 0 ∨
            (batched inp).w % cfg.vae_scale_factor ≠ 0) then
        Except.error PreprocessError.sizeNotDivisible
      else
        Except.ok (rangeAndNormalize cfg (batched inp)) := by
  cases inp with
  | arrs3 hd tl => rfl
  | arrs4 hd tl => rfl
  | tens3 hd tl =>
    have hc : (t3stack hd tl).c ≠ 4 := by simpa [latentShortcut] using hlat
    simp [preprocess, batched, hc]
  | tens4 hd tl =>
    have hc : (t4cat hd tl).c ≠ 4 := by simpa [latentShortcut] using hlat
    simp [preprocess, batched, hc]

/-- Helper: array-typed input never takes the latent shortcut, whatever its
channel count — the early return belongs to the tensor branch only. -/
theorem latentShortcut_eq_false_of_array (inp : BatchInput)
    (h : isArrayInput inp = true) : latentShortcut inp = false := by
  cases inp <;> simp_all [isArrayInput, latentShortcut]

/-- Helper: a negative observed minimum disables normalization. -/
theorem rangeAndNormalize_of_neg_min (cfg : Config) (t : T4) (h : t.tmin < 0) :
    rangeAndNormalize cfg t = t := by
  simp [rangeAndNormalize, h]

/-- Helper: with a non-negative minimum and normalization enabled, the tail
normalizes. -/
theorem rangeAndNormalize_of_nonneg (cfg : Config) (t : T4)
    (hn : cfg.do_normalize = true) (h : 0 ≤ t.tmin) :
    rangeAndNormalize cfg t = normalize t := by
  rw [rangeAndNormalize]
  rw [if_neg (not_lt.mpr h), hn]
  rfl

/-- Helper: banker's rounding stays between the floor and the floor plus
one. -/
theorem roundHalfEven_bounds (v : ℚ) :
    ⌊v⌋ ≤ roundHalfEven v ∧ roundHalfEven v ≤ ⌊v⌋ + 1 := by
  unfold roundHalfEven
  split
  · split <;> omega
  · rw [round_eq]
    have hlow : ⌊v⌋ ≤ ⌊v + 1/2⌋ := Int.floor_le_floor (by linarith)
    have hup : ⌊v + 1/2⌋ < ⌊v⌋ + 2 := by
      rw [Int.floor_lt]
      push_cast
      have := Int.lt_floor_add_one v
      linarith
    omega

/-- Helper: banker's rounding is at most the round-half-up value. -/
theorem roundHalfEven_le_round (v : ℚ) : roundHalfEven v ≤ round v := by
  unfold roundHalfEven
  split
  · rename_i h
    have hv : v + 1/2 = ((⌊v⌋ + 1 : ℤ) : ℚ) := by push_cast; linarith
    rw [round_eq, hv, Int.floor_intCast]
    split <;> omega
  · exact le_rfl

/-- Helper: flooring one dimension to a multiple of a positive stride. -/
theorem floorToMultiple_spec (s d : Nat) (hs : 0 < s) :
    (d - d % s) % s = 0 ∧ d - d % s ≤ d ∧ d - (d - d % s) < s ∧
      (d % s = 0 → d - d % s = d) := by
  have h1 : d % s ≤ d := Nat.mod_le d s
  have h2 : d % s < s := Nat.mod_lt d hs
  have h3 : s * (d / s) + d % s = d := Nat.div_add_mod d s
  refine ⟨?_, Nat.sub_le d _, by omega, by omega⟩
  have h4 : d - d % s = s * (d / s) := by omega
  rw [h4]
  exact Nat.mul_mod_right s _

end VaeImageProcessor

open VaeImageProcessor

/-- C1: preprocess on a single 4-D tensor input whose channel dimension is 4
returns the input unchanged for every configuration: no resize, no
divisibility check, and no normalization, regardless of do_resize and
do_normalize. -/
theorem preprocess_latent_passthrough (cfg : Config) (t : T4) (hc : t.c = 4) :
    preprocess cfg (.tens4 t []) = Except.ok t := by
  simp [preprocess, t4cat, hc]

/-- Witness for C1 at a concrete 4-channel tensor and the default
configuration (resize and normalize both enabled). -/
theorem preprocess_latent_passthrough_witness :
    tLatent.c = 4 ∧ preprocess cfgDefault (.tens4 tLatent []) = Except.ok tLatent :=
  ⟨rfl, preprocess_latent_passthrough cfgDefault tLatent rfl⟩

/-- C2: denormalize is a left inverse of normalize on [0, 1]:
denormalizeVal (normalizeVal x) = x whenever 0 ≤ x ≤ 1. -/
theorem denormalize_normalize_id (x : ℚ) (h0 : 0 ≤ x) (h1 : x ≤ 1) :
    denormalizeVal (normalizeVal x) = x := by
  unfold denormalizeVal normalizeVal clamp
  have hx : (2 * x - 1) / 2 + 1/2 = x := by ring
  rw [hx, max_eq_left h0, min_eq_left h1]

/-- Witness for C2 at x = 0. -/
theorem denormalize_normalize_id_witness :
    (0:ℚ) ≤ 0 ∧ (0:ℚ) ≤ 1 ∧ denormalizeVal (normalizeVal 0) = 0 :=
  ⟨le_rfl, zero_le_one, denormalize_normalize_id 0 le_rfl zero_le_one⟩

/-- C3: for array inputs and non-4-channel tensor inputs, preprocess fails
with the size-not-divisible error exactly when do_resize is enabled and the
batched tensor's height or width is not a multiple of vae_scale_factor; with
do_resize disabled every size is accepted. -/
theorem preprocess_size_error_iff (cfg : Config) (inp : BatchInput)
    (hlat : latentShortcut inp = false) :
    (preprocess cfg inp = Except.error PreprocessError.sizeNotDivisible ↔
      cfg.do_resize = true ∧
        ((batched inp).h % cfg.vae_scale_factor ≠ 0 ∨
          (batched inp).w % cfg.vae_scale_factor ≠ 0)) ∧
    (cfg.do_resize = false → ∃ t, preprocess cfg inp = Except.ok t) := by
  rw [preprocess_not_latent_eq cfg inp hlat]
  constructor
  · by_cases hC : cfg.do_resize = true ∧
        ((batched inp).h % cfg.vae_scale_factor ≠ 0 ∨
          (batched inp).w % cfg.vae_scale_factor ≠ 0)
    · simp [hC]
    · simp [hC]
  · intro hdr
    refine ⟨rangeAndNormalize cfg (batched inp), ?_⟩
    rw [if_neg]
    intro hC
    rw [hdr] at hC
    exact absurd hC.1 (by simp)

/-- Witness for C3 at a concrete 9 by 9 array with the default stride 8:
the error fires and the characterization holds. -/
theorem preprocess_size_error_iff_witness :
    latentShortcut (.arrs3 a3Bad []) = false ∧
      ((preprocess cfgDefault (.arrs3 a3Bad []) =
          Except.error PreprocessError.sizeNotDivisible ↔
        cfgDefault.do_resize = true ∧
          ((batched (.arrs3 a3Bad [])).h % cfgDefault.vae_scale_factor ≠ 0 ∨
            (batched (.arrs3 a3Bad [])).w % cfgDefault.vae_scale_factor ≠ 0)) ∧
        (cfgDefault.do_resize = false →
          ∃ t, preprocess cfgDefault (.arrs3 a3Bad []) = Except.ok t)) :=
  ⟨rfl, preprocess_size_error_iff cfgDefault (.arrs3 a3Bad []) rfl⟩

/-- C4: for array or non-latent tensor input whose minimum element is
negative, normalization is skipped even when do_normalize is enabled: when
the divisibility check passes, the returned tensor is exactly the batched
input, without the 2x-1 transform. -/
theorem preprocess_skips_normalize_on_negative_min (cfg : Config)
    (inp : BatchInput) (hlat : latentShortcut inp = false)
    (hmin : (batched inp).tmin < 0)
    (hchk : ¬(cfg.do_resize = true ∧
      ((batched inp).h % cfg.vae_scale_factor ≠ 0 ∨
        (batched inp).w % cfg.vae_scale_factor ≠ 0))) :
    preprocess cfg inp = Except.ok (batched inp) := by
  rw [preprocess_not_latent_eq cfg inp hlat, if_neg hchk,
    rangeAndNormalize_of_neg_min cfg _ hmin]

/-- Witness for C4 at a concrete all-negative tensor with normalization
enabled. -/
theorem preprocess_skips_normalize_on_negative_min_witness :
    latentShortcut (.tens4 tNeg []) = false ∧
      (batched (.tens4 tNeg [])).tmin < 0 ∧
      cfgNoResize.do_normalize = true ∧
      preprocess cfgNoResize (.tens4 tNeg []) = Except.ok (batched (.tens4 tNeg [])) :=
  ⟨rfl, by decide, rfl,
    preprocess_skips_normalize_on_negative_min cfgNoResize (.tens4 tNeg [])
      rfl (by decide) (by decide)⟩

/-- C10: the latent passthrough never applies to numpy-array input: every
4-channel array input — a single 3-D (H, W, 4) array, a 4-D batch, or a list
of either — is converted to tensor layout, subjected to the divisibility
check, and, when normalization is enabled and its minimum is non-negative,
normalized like any other array; it is never returned unchanged. -/
theorem preprocess_array_no_passthrough (cfg : Config) (inp : BatchInput)
    (harr : isArrayInput inp = true) (_hc : (batched inp).c = 4) :
    (preprocess cfg inp = Except.error PreprocessError.sizeNotDivisible ↔
      cfg.do_resize = true ∧
        ((batched inp).h % cfg.vae_scale_factor ≠ 0 ∨
          (batched inp).w % cfg.vae_scale_factor ≠ 0)) ∧
    (cfg.do_normalize = true → 0 ≤ (batched inp).tmin →
      ¬(cfg.do_resize = true ∧
        ((batched inp).h % cfg.vae_scale_factor ≠ 0 ∨
          (batched inp).w % cfg.vae_scale_factor ≠ 0)) →
      preprocess cfg inp = Except.ok (normalize (batched inp))) := by
  have hlat : latentShortcut inp = false := latentShortcut_eq_false_of_array inp harr
  constructor
  · rw [preprocess_not_latent_eq cfg _ hlat]
    by_cases hC : cfg.do_resize = true ∧
        ((batched inp).h % cfg.vae_scale_factor ≠ 0 ∨
          (batched inp).w % cfg.vae_scale_factor ≠ 0)
    · simp [hC]
    · simp [hC]
  · intro hn hmin hchk
    rw [preprocess_not_latent_eq cfg _ hlat, if_neg hchk,
      rangeAndNormalize_of_nonneg cfg _ hn hmin]

/-- Witness for C10 at a concrete single 3-D 4-channel zero array with
normalization enabled: the check characterization holds and the output is
the normalized batch, not the input passed through. -/
theorem preprocess_array_no_passthrough_witness :
    isArrayInput (.arrs3 a3Latentish []) = true ∧
      (batched (.arrs3 a3Latentish [])).c = 4 ∧
      cfgNoResize.do_normalize = true ∧
      0 ≤ (batched (.arrs3 a3Latentish [])).tmin ∧
      preprocess cfgNoResize (.arrs3 a3Latentish []) =
        Except.ok (normalize (batched (.arrs3 a3Latentish []))) :=
  ⟨rfl, rfl, rfl, by decide,
    (preprocess_array_no_passthrough cfgNoResize (.arrs3 a3Latentish []) rfl rfl).2
      rfl (by decide) (by decide)⟩

/-- C5 counterexample: an output type outside the recognized set, here
"foo", does not make the LDM3D postprocess fail — it is coerced to np and
the call succeeds. -/
theorem ldm3d_postprocess_unknown_type_ok :
    ∃ r, VaeImageProcessorLDM3D.postprocess cfgDefault tPost "foo" none =
      Except.ok r :=
  ⟨_, rfl⟩

/-- C5 amended: the LDM3D postprocess coerces output types outside
latent, pt, np, pil to np with a deprecation warning, exactly like the base
adapter; it instead fails with the unsupported-type error on the recognized
types latent and pt, whose short-circuit returns are commented out in the
source. -/
theorem ldm3d_postprocess_unsupported (cfg : Config) (image : T4)
    (fl : Option (List Bool)) :
    VaeImageProcessorLDM3D.postprocess cfg image "latent" fl =
      Except.error (VaeImageProcessorLDM3D.PostErr.unsupportedType "latent") ∧
    VaeImageProcessorLDM3D.postprocess cfg image "pt" fl =
      Except.error (VaeImageProcessorLDM3D.PostErr.unsupportedType "pt") ∧
    (∀ s, s ≠ "latent" → s ≠ "pt" → s ≠ "np" → s ≠ "pil" →
      VaeImageProcessorLDM3D.postprocess cfg image s fl =
        VaeImageProcessorLDM3D.postprocess cfg image "np" fl ∧
      postprocess cfg image s fl = postprocess cfg image "np" fl) := by
  refine ⟨rfl, rfl, ?_⟩
  intro s h1 h2 h3 h4
  have hco : coerceOutputType s = "np" := by
    simp [coerceOutputType, h1, h2, h3, h4]
  constructor
  · unfold VaeImageProcessorLDM3D.postprocess
    rw [hco]
    rfl
  · unfold postprocess
    rw [hco]
    rfl

/-- Witness for C5 at the concrete unrecognized type "foo": both adapters
coerce it to np. -/
theorem ldm3d_postprocess_unsupported_witness :
    VaeImageProcessorLDM3D.postprocess cfgDefault tPost "foo" none =
      VaeImageProcessorLDM3D.postprocess cfgDefault tPost "np" none ∧
    postprocess cfgDefault tPost "foo" none =
      postprocess cfgDefault tPost "np" none :=
  (ldm3d_postprocess_unsupported cfgDefault tPost none).2.2 "foo"
    (by decide) (by decide) (by decide) (by decide)

/-- C6: decoding with rgblike_to_depthmap inverts the hi/lo byte packing of
a 16-bit value v (high byte in channel 1, low byte in channel 2), and the
decoded value never depends on channel 0: any image agreeing on channels 1
and 2 decodes identically. -/
theorem rgblike_to_depthmap_roundtrip (img : Nat → Nat → Nat → Nat)
    (y x v : Nat) (_hv : v ≤ 65535)
    (h1 : img y x 1 = v / 256) (h2 : img y x 2 = v % 256) :
    VaeImageProcessorLDM3D.rgblike_to_depthmap img y x = v ∧
      ∀ g : Nat → Nat → Nat → Nat, g y x 1 = img y x 1 → g y x 2 = img y x 2 →
        VaeImageProcessorLDM3D.rgblike_to_depthmap g y x =
          VaeImageProcessorLDM3D.rgblike_to_depthmap img y x := by
  constructor
  · unfold VaeImageProcessorLDM3D.rgblike_to_depthmap
    rw [h1, h2]
    have e : (2:Nat) ^ 8 = 256 := rfl
    rw [e]
    omega
  · intro g hg1 hg2
    unfold VaeImageProcessorLDM3D.rgblike_to_depthmap
    rw [hg1, hg2]

/-- A concrete depth-packed pixel map encoding the value 1000. -/
def depthImgW : Nat → Nat → Nat → Nat :=
  fun _ _ c => if c = 1 then 3 else if c = 2 then 232 else 7

/-- Witness for C6 at v = 1000 (hi byte 3, lo byte 232, channel 0 junk). -/
theorem rgblike_to_depthmap_roundtrip_witness :
    1000 ≤ 65535 ∧ depthImgW 0 0 1 = 1000 / 256 ∧ depthImgW 0 0 2 = 1000 % 256 ∧
      (VaeImageProcessorLDM3D.rgblike_to_depthmap depthImgW 0 0 = 1000 ∧
        ∀ g : Nat → Nat → Nat → Nat, g 0 0 1 = depthImgW 0 0 1 →
          g 0 0 2 = depthImgW 0 0 2 →
          VaeImageProcessorLDM3D.rgblike_to_depthmap g 0 0 =
            VaeImageProcessorLDM3D.rgblike_to_depthmap depthImgW 0 0) :=
  ⟨by decide, by decide, by decide,
    rgblike_to_depthmap_roundtrip depthImgW 0 0 1000
      (by decide) (by decide) (by decide)⟩

/-- C7: for a positive stride s, the dimensions chosen by resize are
w - w mod s and h - h mod s: multiples of s, at most the originals, within
s of the originals, and unchanged when already multiples. -/
theorem resize_floors_to_multiple (s w h : Nat) (hs : 0 < s) :
    (resizeDims s w h).1 = w - w % s ∧ (resizeDims s w h).2 = h - h % s ∧
    (resizeDims s w h).1 % s = 0 ∧ (resizeDims s w h).2 % s = 0 ∧
    (resizeDims s w h).1 ≤ w ∧ (resizeDims s w h).2 ≤ h ∧
    w - (resizeDims s w h).1 < s ∧ h - (resizeDims s w h).2 < s ∧
    (w % s = 0 → (resizeDims s w h).1 = w) ∧
    (h % s = 0 → (resizeDims s w h).2 = h) := by
  obtain ⟨a1, a2, a3, a4⟩ := floorToMultiple_spec s w hs
  obtain ⟨b1, b2, b3, b4⟩ := floorToMultiple_spec s h hs
  exact ⟨rfl, rfl, a1, b1, a2, b2, a3, b3, a4, b4⟩

/-- Witness for C7 at stride 8 and a 70 by 70 input. -/
theorem resize_floors_to_multiple_witness :
    0 < 8 ∧
      ((resizeDims 8 70 70).1 = 70 - 70 % 8 ∧ (resizeDims 8 70 70).2 = 70 - 70 % 8 ∧
      (resizeDims 8 70 70).1 % 8 = 0 ∧ (resizeDims 8 70 70).2 % 8 = 0 ∧
      (resizeDims 8 70 70).1 ≤ 70 ∧ (resizeDims 8 70 70).2 ≤ 70 ∧
      70 - (resizeDims 8 70 70).1 < 8 ∧ 70 - (resizeDims 8 70 70).2 < 8 ∧
      (70 % 8 = 0 → (resizeDims 8 70 70).1 = 70) ∧
      (70 % 8 = 0 → (resizeDims 8 70 70).2 = 70)) :=
  ⟨by decide, resize_floors_to_multiple 8 70 70 (by decide)⟩

/-- C8 counterexample: at input 2 the uint8 cast of numpy_to_pil wraps,
producing 254, while clamping round(2 * 255) to [0, 255] would give 255. -/
theorem floatToUint8_wraps :
    ¬ floatToUint8 2 = min (max (roundHalfEven (2 * 255)) 0) 255 := by
  have h1 : floatToUint8 2 = 254 := by
    norm_num [floatToUint8, roundHalfEven, round_eq]
  have h2 : roundHalfEven (2 * 255) = 510 := by
    norm_num [roundHalfEven, round_eq]
  rw [h1, h2]
  decide

/-- C8 amended: the uint8 pixel produced by numpy_to_pil equals
round(x * 255) reduced modulo 256, which wraps rather than clamps on
overflow; on the intended input range [0, 1] the rounded value already lies
in [0, 255], so there the pixel equals round(x * 255) and coincides with the
clamped value, and no wraparound occurs. -/
theorem numpy_to_pil_pixel_in_range (x : ℚ) (h0 : 0 ≤ x) (h1 : x ≤ 1) :
    floatToUint8 x = roundHalfEven (x * 255) ∧
      floatToUint8 x = min (max (roundHalfEven (x * 255)) 0) 255 ∧
      0 ≤ roundHalfEven (x * 255) ∧ roundHalfEven (x * 255) ≤ 255 := by
  have hb := roundHalfEven_bounds (x * 255)
  have hge : (0:ℤ) ≤ ⌊x * 255⌋ :=
    Int.floor_nonneg.mpr (mul_nonneg h0 (by norm_num))
  have hle : roundHalfEven (x * 255) ≤ 255 := by
    have hr : round (x * 255) < 256 := by
      rw [round_eq, Int.floor_lt]
      push_cast
      nlinarith
    have := roundHalfEven_le_round (x * 255)
    omega
  have h0' : (0:ℤ) ≤ roundHalfEven (x * 255) := by omega
  have hid : floatToUint8 x = roundHalfEven (x * 255) := by
    unfold floatToUint8
    exact Int.emod_eq_of_lt h0' (by omega)
  refine ⟨hid, ?_, h0', hle⟩
  rw [hid, max_eq_left h0', min_eq_left hle]

/-- Witness for C8 at x = 1: the pixel is round(255) = 255, no wrap. -/
theorem numpy_to_pil_pixel_in_range_witness :
    (0:ℚ) ≤ 1 ∧ (1:ℚ) ≤ 1 ∧
      (floatToUint8 1 = roundHalfEven (1 * 255) ∧
        floatToUint8 1 = min (max (roundHalfEven (1 * 255)) 0) 255 ∧
        0 ≤ roundHalfEven (1 * 255) ∧ roundHalfEven (1 * 255) ≤ 255) :=
  ⟨zero_le_one, le_rfl, numpy_to_pil_pixel_in_range 1 zero_le_one le_rfl⟩

/-- C9: denormalize is a total clamp: for every rational input x, the value
denormalizeVal x lies in [0, 1]. -/
theorem denormalize_total_clamp (x : ℚ) :
    0 ≤ denormalizeVal x ∧ denormalizeVal x ≤ 1 := by
  unfold denormalizeVal clamp
  constructor
  · exact le_min (le_max_right _ _) zero_le_one
  · exact min_le_right _ _
